import Mathlib

/-!
Verification development for the ProMonitor Modbus emulator repository.

The repository's simulation and control surface live in `data_generator.py`
(`generate_sensor_reading`, `generate_all_sensors`) and `app.py`
(`SCENARIO_STATE`, `trigger_scenario`, `stop_scenario`); the database
integration layer lives in `integration_writer.py` (`write_sensor_data`).
These are embedded below as pure Lean functions: `random.uniform` draws
become explicit rational parameters, the Python two-decimal rounding
`round(x, 2)` is modelled by rounding an exact rational to the nearest
hundredth (the code's ties-at-half behaviour on binary floats is never
exercised by the theorems below), database effects become explicit list
state, and timestamps become abstract naturals.
-/

namespace ProMonitor

/-- Two-decimal rounding, modelling Python's `round(x, 2)` on exact
rationals: round `100 * q` to the nearest integer and divide back. -/
def round2 (q : ℚ) : ℚ := ((round (q * 100) : ℤ) : ℚ) / 100

/-- Rounding `round2` fixes integers. -/
theorem round2_intCast (n : ℤ) : round2 ((n : ℚ)) = n := by
  unfold round2
  have : ((n : ℚ)) * 100 = ((n * 100 : ℤ) : ℚ) := by push_cast; ring
  rw [this, round_intCast]
  push_cast
  field_simp

/-- Rounding `round2` commutes with adding an integer multiple of `1 / 100`. -/
theorem round2_add_cent (q : ℚ) (k : ℤ) :
    round2 (q + (k : ℚ) / 100) = round2 q + (k : ℚ) / 100 := by
  unfold round2
  have h1 : (q + (k : ℚ) / 100) * 100 = q * 100 + (k : ℚ) := by ring
  rw [h1, round_add_int]
  push_cast
  ring

/-- Rounding `round2` is monotone. -/
theorem round2_mono {a b : ℚ} (h : a ≤ b) : round2 a ≤ round2 b := by
  unfold round2
  have hr : round (a * 100) ≤ round (b * 100) := by
    rw [round_eq, round_eq]
    exact Int.floor_mono (by linarith)
  have hq : ((round (a * 100) : ℤ) : ℚ) ≤ ((round (b * 100) : ℤ) : ℚ) := by
    exact_mod_cast hr
  linarith

/-! ## Scenario state (`app.py`, `SCENARIO_STATE` / `trigger_scenario` / `stop_scenario`)

`SCENARIO_STATE` is a Python dict with exactly four fixed keys, one per
scenario type; each value is itself a dict whose key set varies over the
program's lifetime.  Each possibly-absent dict key is modelled as an
`Option` field (`none` = key absent). -/

/-- One entry of `SCENARIO_STATE` / `ACTIVE_SCENARIOS`. -/
structure ScenarioRecord where
  active : Bool
  building_id : Option ℕ
  intensity : Option ℚ
  started_at : Option ℕ
  duration : Option ℚ
  affected_sensors : Option (List ℕ)
  failed_sensors : Option (List ℕ)
deriving DecidableEq, Repr

/-- The four fixed keys of `SCENARIO_STATE`. -/
inductive ScenarioType
  | temperature_spike
  | humidity_drop
  | co2_alarm
  | equipment_failure
deriving DecidableEq, Repr

/-- The whole `SCENARIO_STATE` dict: one record per fixed key. -/
structure ScenarioState where
  temperature_spike : ScenarioRecord
  humidity_drop : ScenarioRecord
  co2_alarm : ScenarioRecord
  equipment_failure : ScenarioRecord
deriving DecidableEq, Repr

/-- Dict lookup `SCENARIO_STATE[t]`. -/
def ScenarioState.get (st : ScenarioState) : ScenarioType → ScenarioRecord
  | .temperature_spike => st.temperature_spike
  | .humidity_drop => st.humidity_drop
  | .co2_alarm => st.co2_alarm
  | .equipment_failure => st.equipment_failure

/-- Dict assignment `SCENARIO_STATE[t] = r`. -/
def ScenarioState.set (st : ScenarioState) : ScenarioType → ScenarioRecord → ScenarioState
  | .temperature_spike, r => { st with temperature_spike := r }
  | .humidity_drop, r => { st with humidity_drop := r }
  | .co2_alarm, r => { st with co2_alarm := r }
  | .equipment_failure, r => { st with equipment_failure := r }

/-- The literal initial value of `SCENARIO_STATE` in `app.py`. -/
def initState : ScenarioState where
  temperature_spike :=
    { active := false, building_id := none, intensity := some 10,
      started_at := none, duration := none, affected_sensors := none,
      failed_sensors := none }
  humidity_drop :=
    { active := false, building_id := none, intensity := some 15,
      started_at := none, duration := none, affected_sensors := none,
      failed_sensors := none }
  co2_alarm :=
    { active := false, building_id := none, intensity := some 400,
      started_at := none, duration := none, affected_sensors := none,
      failed_sensors := none }
  equipment_failure :=
    { active := false, building_id := none, intensity := none,
      started_at := none, duration := none, affected_sensors := none,
      failed_sensors := some [] }

/-- The membership test `scenario_type in SCENARIO_STATE`: maps the four
valid key strings to keys, anything else to `none`. -/
def scenarioOfName (name : String) : Option ScenarioType :=
  if name = "temperature_spike" then some .temperature_spike
  else if name = "humidity_drop" then some .humidity_drop
  else if name = "co2_alarm" then some .co2_alarm
  else if name = "equipment_failure" then some .equipment_failure
  else none

/-- Default intensities assigned by `trigger_scenario` when the request
carries no intensity (the trailing `else` covers `equipment_failure`). -/
def defaultIntensity : ScenarioType → ℚ
  | .temperature_spike => 10
  | .humidity_drop => 15
  | .co2_alarm => 400
  | .equipment_failure => 0

/-- The handler `trigger_scenario` in `app.py` behind `POST /api/scenarios/trigger`.
`building_id` defaults to 1 and `duration` to 300 as in the handler;
`now` stands for `datetime.now()` and `affected` for the sensor ids the
database query returns for the building.  Returns the `success` flag of
the JSON reply together with the updated `SCENARIO_STATE`. -/
def triggerScenario (st : ScenarioState) (name : String)
    (building_id : Option ℕ) (intensity : Option ℚ) (duration : Option ℚ)
    (now : ℕ) (affected : List ℕ) : Bool × ScenarioState :=
  match scenarioOfName name with
  | none => (false, st)
  | some t =>
    let b := building_id.getD 1
    let i := intensity.getD (defaultIntensity t)
    let dur := duration.getD 300
    (true, st.set t
      { active := true, building_id := some b, intensity := some i,
        started_at := some now, duration := some dur,
        affected_sensors := some affected, failed_sensors := none })

/-- The `stop_scenario` loop body for `type == "all"`: every record gets
`active = False` and `building_id = None`, all other keys untouched. -/
def deactivate (r : ScenarioRecord) : ScenarioRecord :=
  { r with active := false, building_id := none }

/-- The handler `stop_scenario` in `app.py` behind `POST /api/scenarios/stop`. -/
def stopScenario (st : ScenarioState) (name : String) : Bool × ScenarioState :=
  if name = "all" then
    (true,
      { temperature_spike := deactivate st.temperature_spike,
        humidity_drop := deactivate st.humidity_drop,
        co2_alarm := deactivate st.co2_alarm,
        equipment_failure := deactivate st.equipment_failure })
  else
    match scenarioOfName name with
    | some t => (true, st.set t (deactivate (st.get t)))
    | none => (false, st)

/-- One control-surface call against the scenario store. -/
inductive Op
  | trigger (name : String) (building_id : Option ℕ) (intensity : Option ℚ)
      (duration : Option ℚ) (now : ℕ) (affected : List ℕ)
  | stop (name : String)

/-- Apply one operation, discarding the reported `success` flag. -/
def applyOp (st : ScenarioState) : Op → ScenarioState
  | .trigger name b i dur now aff => (triggerScenario st name b i dur now aff).2
  | .stop name => (stopScenario st name).2

/-- Run a finite sequence of trigger/stop operations. -/
def runOps (ops : List Op) (st : ScenarioState) : ScenarioState :=
  ops.foldl applyOp st

/-! ## Sensor reading generation (`data_generator.py`)

`generate_sensor_reading` consumes up to eight `random.uniform` draws;
they are passed in explicitly.  `ACTIVE_SCENARIOS` is the same dict shape
as `SCENARIO_STATE` (the module syncs one from the other), so it is the
`ScenarioState` type above. -/

/-- The random draws one `generate_sensor_reading` call may consume, in
source order.  `r_t ∈ [-2,2]`, `r_h ∈ [-5,5]`, `r_c ∈ [400,600]`,
`r_p ∈ [990,1020]`; the equipment-failure branch draws
`f_t ∈ [-10,10]`, `f_h ∈ [0,100]`, `f_c ∈ [0,2000]`, `f_p ∈ [900,1100]`. -/
structure Draws where
  r_t : ℚ
  r_h : ℚ
  r_c : ℚ
  r_p : ℚ
  f_t : ℚ
  f_h : ℚ
  f_c : ℚ
  f_p : ℚ
deriving DecidableEq, Repr

/-- Each draw lies in the interval `random.uniform` was called with. -/
def validDraws (d : Draws) : Prop :=
  -2 ≤ d.r_t ∧ d.r_t ≤ 2 ∧ -5 ≤ d.r_h ∧ d.r_h ≤ 5 ∧
  400 ≤ d.r_c ∧ d.r_c ≤ 600 ∧ 990 ≤ d.r_p ∧ d.r_p ≤ 1020 ∧
  -10 ≤ d.f_t ∧ d.f_t ≤ 10 ∧ 0 ≤ d.f_h ∧ d.f_h ≤ 100 ∧
  0 ≤ d.f_c ∧ d.f_c ≤ 2000 ∧ 900 ≤ d.f_p ∧ d.f_p ≤ 1100

instance (d : Draws) : Decidable (validDraws d) := by
  unfold validDraws; infer_instance

/-- The dict `base_temps` in `generate_sensor_reading` (callers only pass
building ids 1–5; other ids raise `KeyError` in Python and are given a
junk value 0 here, unused by any theorem on concrete buildings). -/
def baseTemps : ℕ → ℤ
  | 1 => 20
  | 2 => 21
  | 3 => 23
  | 4 => 25
  | 5 => 26
  | _ => 0

/-- The dict `base_humidity` in `generate_sensor_reading`. -/
def baseHumidity : ℕ → ℤ
  | 1 => 47
  | 2 => 49
  | 3 => 51
  | 4 => 53
  | 5 => 55
  | _ => 0

/-- The dict returned by `generate_sensor_reading` (the `timestamp` key,
`datetime.now()`, is not modelled). -/
@[ext]
structure Reading where
  sensor_id : ℕ
  temperature : ℚ
  humidity : ℚ
  co2 : ℚ
  pressure : ℚ
  building_id : ℕ
  controller_id : ℕ
deriving DecidableEq, Repr

/-- The function `generate_sensor_reading(sensor_id, building_id, controller_id)` with
scenario dict `st` and random draws `d`. -/
def genReading (st : ScenarioState) (d : Draws)
    (sensor_id building_id controller_id : ℕ) : Reading :=
  let temperature0 := (baseTemps building_id : ℚ) + d.r_t
  let humidity0 := (baseHumidity building_id : ℚ) + d.r_h
  let co2_0 := d.r_c
  let pressure0 := d.r_p
  let temperature1 :=
    if st.temperature_spike.active = true ∧
        st.temperature_spike.building_id = some building_id then
      temperature0 + st.temperature_spike.intensity.getD 10
    else temperature0
  let humidity1 :=
    if st.humidity_drop.active = true ∧
        st.humidity_drop.building_id = some building_id then
      humidity0 - st.humidity_drop.intensity.getD 15
    else humidity0
  let co2_1 :=
    if st.co2_alarm.active = true ∧
        st.co2_alarm.building_id = some building_id then
      co2_0 + st.co2_alarm.intensity.getD 400
    else co2_0
  let temperature2 :=
    if st.equipment_failure.active = true ∧
        st.equipment_failure.building_id = some building_id then
      temperature1 + d.f_t
    else temperature1
  let humidity2 :=
    if st.equipment_failure.active = true ∧
        st.equipment_failure.building_id = some building_id then
      d.f_h
    else humidity1
  let co2_2 :=
    if st.equipment_failure.active = true ∧
        st.equipment_failure.building_id = some building_id then
      d.f_c
    else co2_1
  let pressure2 :=
    if st.equipment_failure.active = true ∧
        st.equipment_failure.building_id = some building_id then
      d.f_p
    else pressure0
  { sensor_id := sensor_id,
    temperature := round2 temperature2,
    humidity := round2 humidity2,
    co2 := round2 co2_2,
    pressure := round2 pressure2,
    building_id := building_id,
    controller_id := controller_id }

/-- The list `sensors_config` in `generate_all_sensors`: triples
`(building_id, controller_id, sensor_id)`; `range(a, b)` is
`List.range' a (b - a)`. -/
def sensorsConfig : List (ℕ × ℕ × ℕ) :=
  (List.range' 1 4).map (fun s => (1, 1, s)) ++
  (List.range' 5 4).map (fun s => (1, 2, s)) ++
  (List.range' 9 4).map (fun s => (1, 3, s)) ++
  (List.range' 13 4).map (fun s => (2, 4, s)) ++
  (List.range' 17 4).map (fun s => (2, 5, s)) ++
  (List.range' 21 4).map (fun s => (2, 6, s)) ++
  (List.range' 25 4).map (fun s => (3, 7, s)) ++
  (List.range' 29 4).map (fun s => (3, 8, s)) ++
  (List.range' 33 4).map (fun s => (3, 9, s)) ++
  (List.range' 37 4).map (fun s => (4, 10, s)) ++
  (List.range' 41 4).map (fun s => (4, 11, s)) ++
  (List.range' 45 4).map (fun s => (5, 12, s)) ++
  (List.range' 49 4).map (fun s => (5, 13, s))

/-- The function `generate_all_sensors()`: one `generate_sensor_reading` call per
config entry.  Each call makes fresh random draws; since the sensor ids
in the config are pairwise distinct, indexing the draw oracle `ds` by
sensor id gives every call its own draws. -/
def generateAllSensors (st : ScenarioState) (ds : ℕ → Draws) : List Reading :=
  sensorsConfig.map (fun c => genReading st (ds c.2.2) c.2.2 c.1 c.2.1)

/-! ## Register codec

The repository's protocol-server variants carrying the register codec are
not among the provided source files; the codec is modelled from the spec
(§4.1). -/

/-- Modelled from the spec: the register codec of §4.1 has no source file
here.  An IEEE-754 binary32 datum as its sign / biased-exponent /
fraction fields; `exp = 255` encodes infinities and NaNs, so a finite
value has `exp ≠ 255`. -/
structure Float32 where
  sign : Bool
  exp : Fin 256
  frac : Fin 8388608
deriving DecidableEq, Repr

/-- Modelled from the spec: the 32-bit big-endian bit pattern of a
`Float32` (sign bit, then 8 exponent bits, then 23 fraction bits). -/
def Float32.toBits (f : Float32) : ℕ :=
  (cond f.sign 1 0) * 2147483648 + f.exp.val * 8388608 + f.frac.val

/-- Modelled from the spec: recover the fields from a 32-bit pattern. -/
def Float32.ofBits (b : ℕ) : Float32 where
  sign := decide (b / 2147483648 % 2 = 1)
  exp := ⟨b / 8388608 % 256, Nat.mod_lt _ (by omega)⟩
  frac := ⟨b % 8388608, Nat.mod_lt _ (by omega)⟩

/-- Modelled from the spec: `encode(value) -> (hi, lo)` — the big-endian
32-bit representation split into two 16-bit words, `hi` the first two
bytes, `lo` the last two. -/
def encode (f : Float32) : ℕ × ℕ :=
  (f.toBits / 65536, f.toBits % 65536)

/-- Modelled from the spec: `decode(hi, lo)` — the inverse operation. -/
def decode (hi lo : ℕ) : Float32 :=
  Float32.ofBits (hi * 65536 + lo)

/-! ## Database integration writer (`integration_writer.py`)

`ModbusIntegrationWriter.write_sensor_data` checks
`sensor_id not in self.sensor_mappings` before inserting; the mapping's
key set and the `data_data` table become explicit arguments, and a
possible database failure of the `INSERT` becomes the flag `insertOk`
(the `except` branch also returns `False` with nothing written). -/

/-- One row of the Django `data_data` table (modelled fields only). -/
structure DataRow where
  value : ℚ
  date : ℕ
  name_id : ℕ
deriving DecidableEq, Repr

/-- The method `write_sensor_data(sensor_id, value, timestamp)`: returns the boolean
result together with the table contents after the call. -/
def writeSensorData (mappings : List ℕ) (db : List DataRow)
    (sensor_id : ℕ) (value : ℚ) (timestamp : ℕ) (insertOk : Bool) :
    Bool × List DataRow :=
  if sensor_id ∈ mappings then
    if insertOk then
      (true, db ++ [{ value := value, date := timestamp, name_id := sensor_id }])
    else (false, db)
  else (false, db)

/-! ## Helper lemmas on the scenario store -/

/-- The canonical name string of each scenario type. -/
def nameOf : ScenarioType → String
  | .temperature_spike => "temperature_spike"
  | .humidity_drop => "humidity_drop"
  | .co2_alarm => "co2_alarm"
  | .equipment_failure => "equipment_failure"

theorem scenarioOfName_nameOf (t : ScenarioType) : scenarioOfName (nameOf t) = some t := by
  cases t <;> rfl

theorem nameOf_ne_all (t : ScenarioType) : nameOf t ≠ "all" := by
  cases t <;> decide

theorem get_set_same (st : ScenarioState) (t : ScenarioType) (r : ScenarioRecord) :
    (st.set t r).get t = r := by
  cases t <;> rfl

theorem get_set_ne (st : ScenarioState) (t t' : ScenarioType) (r : ScenarioRecord)
    (h : t' ≠ t) : (st.set t r).get t' = st.get t' := by
  cases t <;> cases t' <;> first | rfl | exact absurd rfl h

/-! ## Claim theorems -/

/-- C3: for every scenario name outside the closed set of four, the
trigger operation returns success = false and leaves the scenario state
completely unchanged — this includes the literal "all", which is not a
valid trigger type — and, whenever the name is additionally not the
literal "all", the stop operation does the same. -/
theorem C3_invalid_name_rejected (st : ScenarioState) (name : String)
    (hname : scenarioOfName name = none)
    (b : Option ℕ) (i dur : Option ℚ) (now : ℕ) (aff : List ℕ) :
    triggerScenario st name b i dur now aff = (false, st) ∧
    (name ≠ "all" → stopScenario st name = (false, st)) := by
  constructor
  · unfold triggerScenario
    rw [hname]
  · intro hall
    unfold stopScenario
    rw [if_neg hall, hname]

/-- C3 witness: triggering with "all" and with "normal" (a scenario of
other deployment variants) is rejected with the store unchanged, and so
is stopping with "normal". -/
theorem C3_invalid_name_rejected_witness :
    triggerScenario initState "all" none none none 0 [] = (false, initState) ∧
    triggerScenario initState "normal" none none none 0 [] = (false, initState) ∧
    stopScenario initState "normal" = (false, initState) :=
  ⟨(C3_invalid_name_rejected initState "all" (by decide) none none none 0 []).1,
   (C3_invalid_name_rejected initState "normal" (by decide) none none none 0 []).1,
   (C3_invalid_name_rejected initState "normal" (by decide) none none none 0 []).2
     (by decide)⟩

/-- C4: triggering without a caller-supplied intensity stores the
documented default (temperature_spike 10, humidity_drop 15,
co2_alarm 400); a caller-supplied intensity is stored exactly, for every
valid scenario type. -/
theorem C4_intensity_stored (st : ScenarioState) (b : Option ℕ)
    (dur : Option ℚ) (now : ℕ) (aff : List ℕ) (i : ℚ) :
    ((triggerScenario st "temperature_spike" b none dur now aff).2.temperature_spike).intensity
      = some 10 ∧
    ((triggerScenario st "humidity_drop" b none dur now aff).2.humidity_drop).intensity
      = some 15 ∧
    ((triggerScenario st "co2_alarm" b none dur now aff).2.co2_alarm).intensity
      = some 400 ∧
    ((triggerScenario st "temperature_spike" b (some i) dur now aff).2.temperature_spike).intensity
      = some i ∧
    ((triggerScenario st "humidity_drop" b (some i) dur now aff).2.humidity_drop).intensity
      = some i ∧
    ((triggerScenario st "co2_alarm" b (some i) dur now aff).2.co2_alarm).intensity
      = some i ∧
    ((triggerScenario st "equipment_failure" b (some i) dur now aff).2.equipment_failure).intensity
      = some i := by
  refine ⟨rfl, rfl, rfl, rfl, rfl, rfl, rfl⟩

/-- The conclusion of claim C6, at a state `st`, a stopped type `t` and
an observer type `t'`: stopping "all" succeeds and deactivates every
record while preserving every other key (intensities included); stopping
the single type `t` succeeds, clears only its active flag and building
scope, and leaves the entry of any other type untouched. -/
def C6Prop (st : ScenarioState) (t t' : ScenarioType) : Prop :=
  (stopScenario st "all").1 = true ∧
  (∀ u, ((stopScenario st "all").2.get u).active = false ∧
        ((stopScenario st "all").2.get u).building_id = none ∧
        ((stopScenario st "all").2.get u).intensity = (st.get u).intensity ∧
        ((stopScenario st "all").2.get u).started_at = (st.get u).started_at ∧
        ((stopScenario st "all").2.get u).duration = (st.get u).duration ∧
        ((stopScenario st "all").2.get u).affected_sensors = (st.get u).affected_sensors ∧
        ((stopScenario st "all").2.get u).failed_sensors = (st.get u).failed_sensors) ∧
  (stopScenario st (nameOf t)).1 = true ∧
  (((stopScenario st (nameOf t)).2.get t).active = false ∧
   ((stopScenario st (nameOf t)).2.get t).building_id = none ∧
   ((stopScenario st (nameOf t)).2.get t).intensity = (st.get t).intensity ∧
   ((stopScenario st (nameOf t)).2.get t).started_at = (st.get t).started_at ∧
   ((stopScenario st (nameOf t)).2.get t).duration = (st.get t).duration ∧
   ((stopScenario st (nameOf t)).2.get t).affected_sensors = (st.get t).affected_sensors ∧
   ((stopScenario st (nameOf t)).2.get t).failed_sensors = (st.get t).failed_sensors) ∧
  ((stopScenario st (nameOf t)).2.get t') = st.get t'

/-- C6: stopping with name "all" deactivates every scenario type and
reports success; stopping one valid type modifies only that type's active
flag and building scope, leaving every other entry — and all stored
intensities — unchanged. -/
theorem C6_stop_frame (st : ScenarioState) (t t' : ScenarioType) (h : t' ≠ t) :
    C6Prop st t t' := by
  refine ⟨rfl, ?_, ?_, ?_, ?_⟩
  · intro u; cases u <;> exact ⟨rfl, rfl, rfl, rfl, rfl, rfl, rfl⟩
  · cases t <;> rfl
  · cases t <;> exact ⟨rfl, rfl, rfl, rfl, rfl, rfl, rfl⟩
  · cases t <;> cases t' <;> first | rfl | exact absurd rfl h

/-- C6 witness at the initial store, stopping `temperature_spike` while
observing `humidity_drop`. -/
theorem C6_stop_frame_witness :
    C6Prop initState .temperature_spike .humidity_drop :=
  C6_stop_frame initState .temperature_spike .humidity_drop (by decide)

/-- The record `trigger_scenario` installs for scenario type `t`. -/
def activeRecord (t : ScenarioType) (b : Option ℕ) (i dur : Option ℚ)
    (now : ℕ) (aff : List ℕ) : ScenarioRecord :=
  { active := true, building_id := some (b.getD 1),
    intensity := some (i.getD (defaultIntensity t)),
    started_at := some now, duration := some (dur.getD 300),
    affected_sensors := some aff, failed_sensors := none }

theorem triggerScenario_none (st : ScenarioState) (name : String)
    (b : Option ℕ) (i dur : Option ℚ) (now : ℕ) (aff : List ℕ)
    (h : scenarioOfName name = none) :
    triggerScenario st name b i dur now aff = (false, st) := by
  unfold triggerScenario
  rw [h]

theorem triggerScenario_some_snd (st : ScenarioState) (name : String)
    (b : Option ℕ) (i dur : Option ℚ) (now : ℕ) (aff : List ℕ)
    (t : ScenarioType) (h : scenarioOfName name = some t) :
    (triggerScenario st name b i dur now aff).2 =
      st.set t (activeRecord t b i dur now aff) := by
  unfold triggerScenario
  rw [h]
  rfl

theorem stopScenario_all_snd (st : ScenarioState) :
    (stopScenario st "all").2 =
      { temperature_spike := deactivate st.temperature_spike,
        humidity_drop := deactivate st.humidity_drop,
        co2_alarm := deactivate st.co2_alarm,
        equipment_failure := deactivate st.equipment_failure } := rfl

theorem stopScenario_none (st : ScenarioState) (name : String)
    (h1 : name ≠ "all") (h2 : scenarioOfName name = none) :
    stopScenario st name = (false, st) := by
  unfold stopScenario
  rw [if_neg h1, h2]

theorem stopScenario_some_snd (st : ScenarioState) (name : String)
    (t : ScenarioType) (h1 : name ≠ "all") (h2 : scenarioOfName name = some t) :
    (stopScenario st name).2 = st.set t (deactivate (st.get t)) := by
  unfold stopScenario
  rw [if_neg h1, h2]

/-- Every reachable scenario record that is active carries exactly one
building scope. -/
def oneInstanceInv (st : ScenarioState) : Prop :=
  ∀ t, (st.get t).active = true → ∃ b, (st.get t).building_id = some b

theorem oneInstanceInv_applyOp (st : ScenarioState) (op : Op)
    (h : oneInstanceInv st) : oneInstanceInv (applyOp st op) := by
  cases op with
  | trigger name b i dur now aff =>
    show oneInstanceInv (triggerScenario st name b i dur now aff).2
    cases hsc : scenarioOfName name with
    | none =>
      rw [triggerScenario_none st name b i dur now aff hsc]
      exact h
    | some u =>
      rw [triggerScenario_some_snd st name b i dur now aff u hsc]
      intro t ht
      by_cases htu : t = u
      · subst htu
        rw [get_set_same]
        exact ⟨b.getD 1, rfl⟩
      · rw [get_set_ne st u t _ htu] at ht ⊢
        exact h t ht
  | stop name =>
    show oneInstanceInv (stopScenario st name).2
    by_cases hall : name = "all"
    · subst hall
      rw [stopScenario_all_snd]
      intro t ht
      cases t <;> simp [ScenarioState.get, deactivate] at ht
    · cases hsc : scenarioOfName name with
      | none =>
        rw [stopScenario_none st name hall hsc]
        exact h
      | some u =>
        rw [stopScenario_some_snd st name u hall hsc]
        intro t ht
        by_cases htu : t = u
        · subst htu
          rw [get_set_same] at ht
          simp [deactivate] at ht
        · rw [get_set_ne st u t _ htu] at ht ⊢
          exact h t ht

theorem oneInstanceInv_runOps (ops : List Op) (st : ScenarioState)
    (h : oneInstanceInv st) : oneInstanceInv (runOps ops st) := by
  induction ops generalizing st with
  | nil => exact h
  | cons op rest ih => exact ih (applyOp st op) (oneInstanceInv_applyOp st op h)

theorem oneInstanceInv_init : oneInstanceInv initState := by
  intro t ht
  cases t <;> simp [initState, ScenarioState.get] at ht

/-- C5: after every finite sequence of trigger and stop operations from
the initial state, each scenario type has at most one active instance,
scoped to exactly one building when active; triggering a type replaces
its previous activation with a record built only from the new request,
never accumulating a second instance. -/
theorem C5_one_instance (ops : List Op) :
    oneInstanceInv (runOps ops initState) ∧
    (∀ (st : ScenarioState) (t : ScenarioType) (b : Option ℕ)
        (i dur : Option ℚ) (now : ℕ) (aff : List ℕ),
      ((triggerScenario st (nameOf t) b i dur now aff).2).get t =
        { active := true, building_id := some (b.getD 1),
          intensity := some (i.getD (defaultIntensity t)),
          started_at := some now, duration := some (dur.getD 300),
          affected_sensors := some aff, failed_sensors := none }) := by
  constructor
  · exact oneInstanceInv_runOps ops initState oneInstanceInv_init
  · intro st t b i dur now aff
    cases t <;> rfl

/-- C5 witness: one concrete trigger leaves `temperature_spike` active
and scoped to exactly one building. -/
theorem C5_one_instance_witness :
    ∃ b, ((runOps [Op.trigger "temperature_spike" (some 2) none none 5 [1, 2]]
      initState).get .temperature_spike).building_id = some b :=
  (C5_one_instance [Op.trigger "temperature_spike" (some 2) none none 5 [1, 2]]).1
    .temperature_spike (by decide)

theorem Float32.ofBits_toBits (f : Float32) : Float32.ofBits f.toBits = f := by
  obtain ⟨s, ⟨e, he⟩, ⟨fr, hfr⟩⟩ := f
  unfold Float32.ofBits Float32.toBits
  cases s
  · simp only [cond_false]
    congr 1
    · apply decide_eq_false
      omega
    · apply Fin.ext
      show (0 * 2147483648 + e * 8388608 + fr) / 8388608 % 256 = e
      omega
    · apply Fin.ext
      show (0 * 2147483648 + e * 8388608 + fr) % 8388608 = fr
      omega
  · simp only [cond_true]
    congr 1
    · apply decide_eq_true
      omega
    · apply Fin.ext
      show (1 * 2147483648 + e * 8388608 + fr) / 8388608 % 256 = e
      omega
    · apply Fin.ext
      show (1 * 2147483648 + e * 8388608 + fr) % 8388608 = fr
      omega

/-- C7: for every finite float32-representable value, decoding the pair
of 16-bit register words produced by encoding reproduces the value
exactly. -/
theorem C7_codec_roundtrip (f : Float32) (hfin : f.exp.val ≠ 255) :
    decode (encode f).1 (encode f).2 = f := by
  show Float32.ofBits (f.toBits / 65536 * 65536 + f.toBits % 65536) = f
  rw [Nat.div_add_mod']
  exact Float32.ofBits_toBits f

/-- A concrete finite float32 value (sign 1, exponent 128, fraction
2^22, i.e. -3.0). -/
def c7val : Float32 := { sign := true, exp := 128, frac := 4194304 }

/-- C7 witness: the round trip at a concrete finite value. -/
theorem C7_codec_roundtrip_witness :
    decode (encode c7val).1 (encode c7val).2 = c7val :=
  C7_codec_roundtrip c7val (by decide)

/-- C8: a sensor id absent from the writer's mappings makes
`write_sensor_data` return false with no database write; a known id with
a successful insert returns true, the row appended — the unknown-sensor
case is a boolean failure, not an exception (the model is a total
function into `Bool × table`). -/
theorem C8_unknown_sensor_boolean (mappings : List ℕ) (db : List DataRow)
    (s : ℕ) (v : ℚ) (ts : ℕ) (ok : Bool) :
    (s ∉ mappings → writeSensorData mappings db s v ts ok = (false, db)) ∧
    (s ∈ mappings →
      writeSensorData mappings db s v ts true =
        (true, db ++ [{ value := v, date := ts, name_id := s }])) := by
  constructor
  · intro hs
    simp [writeSensorData, hs]
  · intro hs
    simp [writeSensorData, hs]

/-- C8 witness: with mapping key set 7, sensor 3 is rejected without a
write and sensor 7 is written. -/
theorem C8_unknown_sensor_boolean_witness :
    writeSensorData [7] [] 3 1 0 true = (false, []) ∧
    writeSensorData [7] [] 7 1 0 true =
      (true, [{ value := 1, date := 0, name_id := 7 }]) :=
  ⟨(C8_unknown_sensor_boolean [7] [] 3 1 0 true).1 (by decide),
   (C8_unknown_sensor_boolean [7] [] 7 1 0 true).2 (by decide)⟩

/-- C9: every call of `generate_all_sensors` returns exactly 52 readings
(the docstring says 50), with pairwise-distinct sensor ids covering
exactly 1..52, and buildings 1, 2, 3 contributing 12 readings each,
buildings 4 and 5 contributing 8 each, for any scenario state and any
random draws. -/
theorem C9_fifty_two_sensors (st : ScenarioState) (ds : ℕ → Draws) :
    (generateAllSensors st ds).length = 52 ∧
    (generateAllSensors st ds).map Reading.sensor_id = List.range' 1 52 ∧
    ((generateAllSensors st ds).map Reading.sensor_id).Nodup ∧
    (generateAllSensors st ds).countP (fun r => r.building_id == 1) = 12 ∧
    (generateAllSensors st ds).countP (fun r => r.building_id == 2) = 12 ∧
    (generateAllSensors st ds).countP (fun r => r.building_id == 3) = 12 ∧
    (generateAllSensors st ds).countP (fun r => r.building_id == 4) = 8 ∧
    (generateAllSensors st ds).countP (fun r => r.building_id == 5) = 8 := by
  have hmap : (generateAllSensors st ds).map Reading.sensor_id = List.range' 1 52 := rfl
  refine ⟨rfl, hmap, ?_, rfl, rfl, rfl, rfl, rfl⟩
  rw [hmap]
  decide

/-! ## Further rounding lemmas and `genReading` field evaluations -/

theorem round2_sub_cent (q : ℚ) (k : ℤ) :
    round2 (q - (k : ℚ) / 100) = round2 q - (k : ℚ) / 100 := by
  have h : q - (k : ℚ) / 100 = q + ((-k : ℤ) : ℚ) / 100 := by push_cast; ring
  rw [h, round2_add_cent]
  push_cast
  ring

theorem round2_ge_int (n : ℤ) (q : ℚ) (h : (n : ℚ) ≤ q) : (n : ℚ) ≤ round2 q := by
  have := round2_mono h
  rwa [round2_intCast] at this

theorem round2_le_int (n : ℤ) (q : ℚ) (h : q ≤ (n : ℚ)) : round2 q ≤ (n : ℚ) := by
  have := round2_mono h
  rwa [round2_intCast] at this

theorem genReading_temperature_def (st : ScenarioState) (d : Draws) (s b c : ℕ) :
    (genReading st d s b c).temperature = round2 (
      if st.equipment_failure.active = true ∧ st.equipment_failure.building_id = some b then
        (if st.temperature_spike.active = true ∧ st.temperature_spike.building_id = some b
         then (baseTemps b : ℚ) + d.r_t + st.temperature_spike.intensity.getD 10
         else (baseTemps b : ℚ) + d.r_t) + d.f_t
      else
        if st.temperature_spike.active = true ∧ st.temperature_spike.building_id = some b
        then (baseTemps b : ℚ) + d.r_t + st.temperature_spike.intensity.getD 10
        else (baseTemps b : ℚ) + d.r_t) := rfl

theorem genReading_humidity_def (st : ScenarioState) (d : Draws) (s b c : ℕ) :
    (genReading st d s b c).humidity = round2 (
      if st.equipment_failure.active = true ∧ st.equipment_failure.building_id = some b then
        d.f_h
      else
        if st.humidity_drop.active = true ∧ st.humidity_drop.building_id = some b
        then (baseHumidity b : ℚ) + d.r_h - st.humidity_drop.intensity.getD 15
        else (baseHumidity b : ℚ) + d.r_h) := rfl

theorem genReading_co2_def (st : ScenarioState) (d : Draws) (s b c : ℕ) :
    (genReading st d s b c).co2 = round2 (
      if st.equipment_failure.active = true ∧ st.equipment_failure.building_id = some b then
        d.f_c
      else
        if st.co2_alarm.active = true ∧ st.co2_alarm.building_id = some b
        then d.r_c + st.co2_alarm.intensity.getD 400
        else d.r_c) := rfl

theorem genReading_pressure_def (st : ScenarioState) (d : Draws) (s b c : ℕ) :
    (genReading st d s b c).pressure = round2 (
      if st.equipment_failure.active = true ∧ st.equipment_failure.building_id = some b then
        d.f_p
      else d.r_p) := rfl

/-- Concrete draws with every `random.uniform` output at a midpoint. -/
def c1draws : Draws :=
  { r_t := 0, r_h := 0, r_c := 500, r_p := 1000,
    f_t := 0, f_h := 50, f_c := 1000, f_p := 1000 }

/-- C1 counterexample: `generate_sensor_reading` performs no clamping, so
no fixed pair of bounds for a sensor's co2 value can hold for every
scenario state — triggering `co2_alarm` with a large enough intensity
pushes the reading past any candidate upper bound. -/
theorem C1_no_clamp_counterexample :
    ¬ ∃ lo hi : ℚ, ∀ (st : ScenarioState) (d : Draws), validDraws d →
        lo ≤ (genReading st d 1 1 1).co2 ∧ (genReading st d 1 1 1).co2 ≤ hi := by
  rintro ⟨lo, hi, h⟩
  have hvalid : validDraws c1draws := by decide
  have hco2 : ∀ k : ℤ,
      (genReading ((triggerScenario initState "co2_alarm" (some 1) (some (k : ℚ))
          none 0 []).2) c1draws 1 1 1).co2 = 500 + (k : ℚ) := by
    intro k
    rw [triggerScenario_some_snd initState "co2_alarm" (some 1) (some (k : ℚ))
      none 0 [] .co2_alarm rfl]
    rw [genReading_co2_def]
    rw [if_neg (fun hc => Bool.noConfusion hc.1), if_pos ⟨rfl, rfl⟩]
    show round2 ((500 : ℚ) + (k : ℚ)) = 500 + (k : ℚ)
    have hcast : (500 : ℚ) + (k : ℚ) = ((500 + k : ℤ) : ℚ) := by push_cast; ring
    rw [hcast, round2_intCast]
  have hup := (h ((triggerScenario initState "co2_alarm" (some 1)
      (some ((⌈hi⌉ + 1 : ℤ) : ℚ)) none 0 []).2) c1draws hvalid).2
  rw [hco2 (⌈hi⌉ + 1)] at hup
  have hceil : hi ≤ (⌈hi⌉ : ℚ) := Int.le_ceil hi
  push_cast at hup
  linarith

/-- No scenario in `st` is active and scoped to building `b`. -/
def noScenarioFor (st : ScenarioState) (b : ℕ) : Prop :=
  ¬(st.temperature_spike.active = true ∧ st.temperature_spike.building_id = some b) ∧
  ¬(st.humidity_drop.active = true ∧ st.humidity_drop.building_id = some b) ∧
  ¬(st.co2_alarm.active = true ∧ st.co2_alarm.building_id = some b) ∧
  ¬(st.equipment_failure.active = true ∧ st.equipment_failure.building_id = some b)

instance (st : ScenarioState) (b : ℕ) : Decidable (noScenarioFor st b) := by
  unfold noScenarioFor; infer_instance

/-- The fixed per-building ranges the quantities of a scenario-free
reading fall into. -/
def C1Ranges (st : ScenarioState) (d : Draws) (s b c : ℕ) : Prop :=
  (baseTemps b : ℚ) - 2 ≤ (genReading st d s b c).temperature ∧
  (genReading st d s b c).temperature ≤ (baseTemps b : ℚ) + 2 ∧
  (baseHumidity b : ℚ) - 5 ≤ (genReading st d s b c).humidity ∧
  (genReading st d s b c).humidity ≤ (baseHumidity b : ℚ) + 5 ∧
  400 ≤ (genReading st d s b c).co2 ∧ (genReading st d s b c).co2 ≤ 600 ∧
  990 ≤ (genReading st d s b c).pressure ∧ (genReading st d s b c).pressure ≤ 1020

/-- C1 amended: `generate_sensor_reading` defines no per-sensor
[min, max] configuration, no pin state and no clamping; what holds is
that when no scenario is active for the sensor's building, every
quantity lies in the fixed range given by its base value and noise
bounds. -/
theorem C1_unaffected_bounds (st : ScenarioState) (d : Draws) (s b c : ℕ)
    (hd : validDraws d) (hns : noScenarioFor st b) : C1Ranges st d s b c := by
  obtain ⟨hTS, hHD, hCA, hEF⟩ := hns
  obtain ⟨h1, h2, h3, h4, h5, h6, h7, h8, -, -, -, -, -, -, -, -⟩ := hd
  have ht : (genReading st d s b c).temperature = round2 ((baseTemps b : ℚ) + d.r_t) := by
    rw [genReading_temperature_def, if_neg hEF, if_neg hTS]
  have hh : (genReading st d s b c).humidity = round2 ((baseHumidity b : ℚ) + d.r_h) := by
    rw [genReading_humidity_def, if_neg hEF, if_neg hHD]
  have hc : (genReading st d s b c).co2 = round2 d.r_c := by
    rw [genReading_co2_def, if_neg hEF, if_neg hCA]
  have hp : (genReading st d s b c).pressure = round2 d.r_p := by
    rw [genReading_pressure_def, if_neg hEF]
  refine ⟨?_, ?_, ?_, ?_, ?_, ?_, ?_, ?_⟩
  · rw [ht]
    have := round2_ge_int (baseTemps b - 2) ((baseTemps b : ℚ) + d.r_t)
      (by push_cast; linarith)
    push_cast at this; linarith
  · rw [ht]
    have := round2_le_int (baseTemps b + 2) ((baseTemps b : ℚ) + d.r_t)
      (by push_cast; linarith)
    push_cast at this; linarith
  · rw [hh]
    have := round2_ge_int (baseHumidity b - 5) ((baseHumidity b : ℚ) + d.r_h)
      (by push_cast; linarith)
    push_cast at this; linarith
  · rw [hh]
    have := round2_le_int (baseHumidity b + 5) ((baseHumidity b : ℚ) + d.r_h)
      (by push_cast; linarith)
    push_cast at this; linarith
  · rw [hc]
    have := round2_ge_int 400 d.r_c (by push_cast; linarith)
    push_cast at this; linarith
  · rw [hc]
    have := round2_le_int 600 d.r_c (by push_cast; linarith)
    push_cast at this; linarith
  · rw [hp]
    have := round2_ge_int 990 d.r_p (by push_cast; linarith)
    push_cast at this; linarith
  · rw [hp]
    have := round2_le_int 1020 d.r_p (by push_cast; linarith)
    push_cast at this; linarith

/-- C1 amended witness at the scenario-free initial store and midpoint
draws. -/
theorem C1_unaffected_bounds_witness : C1Ranges initState c1draws 1 1 1 :=
  C1_unaffected_bounds initState c1draws 1 1 1 (by decide) (by decide)

/-! ## Conditional field evaluations of `genReading` -/

theorem genReading_temp_spike (st : ScenarioState) (d : Draws) (s b c : ℕ)
    (hEF : ¬(st.equipment_failure.active = true ∧ st.equipment_failure.building_id = some b))
    (hTS : st.temperature_spike.active = true ∧ st.temperature_spike.building_id = some b) :
    (genReading st d s b c).temperature =
      round2 ((baseTemps b : ℚ) + d.r_t + st.temperature_spike.intensity.getD 10) := by
  rw [genReading_temperature_def, if_neg hEF, if_pos hTS]

theorem genReading_temp_plain (st : ScenarioState) (d : Draws) (s b c : ℕ)
    (hEF : ¬(st.equipment_failure.active = true ∧ st.equipment_failure.building_id = some b))
    (hTS : ¬(st.temperature_spike.active = true ∧ st.temperature_spike.building_id = some b)) :
    (genReading st d s b c).temperature = round2 ((baseTemps b : ℚ) + d.r_t) := by
  rw [genReading_temperature_def, if_neg hEF, if_neg hTS]

theorem genReading_humid_drop (st : ScenarioState) (d : Draws) (s b c : ℕ)
    (hEF : ¬(st.equipment_failure.active = true ∧ st.equipment_failure.building_id = some b))
    (hHD : st.humidity_drop.active = true ∧ st.humidity_drop.building_id = some b) :
    (genReading st d s b c).humidity =
      round2 ((baseHumidity b : ℚ) + d.r_h - st.humidity_drop.intensity.getD 15) := by
  rw [genReading_humidity_def, if_neg hEF, if_pos hHD]

theorem genReading_humid_plain (st : ScenarioState) (d : Draws) (s b c : ℕ)
    (hEF : ¬(st.equipment_failure.active = true ∧ st.equipment_failure.building_id = some b))
    (hHD : ¬(st.humidity_drop.active = true ∧ st.humidity_drop.building_id = some b)) :
    (genReading st d s b c).humidity = round2 ((baseHumidity b : ℚ) + d.r_h) := by
  rw [genReading_humidity_def, if_neg hEF, if_neg hHD]

theorem genReading_co2_alarm (st : ScenarioState) (d : Draws) (s b c : ℕ)
    (hEF : ¬(st.equipment_failure.active = true ∧ st.equipment_failure.building_id = some b))
    (hCA : st.co2_alarm.active = true ∧ st.co2_alarm.building_id = some b) :
    (genReading st d s b c).co2 =
      round2 (d.r_c + st.co2_alarm.intensity.getD 400) := by
  rw [genReading_co2_def, if_neg hEF, if_pos hCA]

theorem genReading_co2_plain (st : ScenarioState) (d : Draws) (s b c : ℕ)
    (hEF : ¬(st.equipment_failure.active = true ∧ st.equipment_failure.building_id = some b))
    (hCA : ¬(st.co2_alarm.active = true ∧ st.co2_alarm.building_id = some b)) :
    (genReading st d s b c).co2 = round2 d.r_c := by
  rw [genReading_co2_def, if_neg hEF, if_neg hCA]

theorem genReading_pressure_plain (st : ScenarioState) (d : Draws) (s b c : ℕ)
    (hEF : ¬(st.equipment_failure.active = true ∧ st.equipment_failure.building_id = some b)) :
    (genReading st d s b c).pressure = round2 d.r_p := by
  rw [genReading_pressure_def, if_neg hEF]

/-- A reading for a building no scenario targets is the same as the one
generated against the all-inactive initial scenario state. -/
theorem genReading_no_scenario (st : ScenarioState) (d : Draws) (s b c : ℕ)
    (hns : noScenarioFor st b) :
    genReading st d s b c = genReading initState d s b c := by
  obtain ⟨hTS, hHD, hCA, hEF⟩ := hns
  have iTS : ¬(initState.temperature_spike.active = true ∧
      initState.temperature_spike.building_id = some b) := fun h => Bool.noConfusion h.1
  have iHD : ¬(initState.humidity_drop.active = true ∧
      initState.humidity_drop.building_id = some b) := fun h => Bool.noConfusion h.1
  have iCA : ¬(initState.co2_alarm.active = true ∧
      initState.co2_alarm.building_id = some b) := fun h => Bool.noConfusion h.1
  have iEF : ¬(initState.equipment_failure.active = true ∧
      initState.equipment_failure.building_id = some b) := fun h => Bool.noConfusion h.1
  ext
  · rfl
  · rw [genReading_temp_plain st d s b c hEF hTS,
      genReading_temp_plain initState d s b c iEF iTS]
  · rw [genReading_humid_plain st d s b c hEF hHD,
      genReading_humid_plain initState d s b c iEF iHD]
  · rw [genReading_co2_plain st d s b c hEF hCA,
      genReading_co2_plain initState d s b c iEF iCA]
  · rw [genReading_pressure_plain st d s b c hEF,
      genReading_pressure_plain initState d s b c iEF]
  · rfl
  · rfl

/-- Draws for the C2 counterexample: the temperature noise draw is
1/500 = 0.002, all other draws at midpoints. -/
def c2draws : Draws :=
  { r_t := 1/500, r_h := 0, r_c := 500, r_p := 1000,
    f_t := 0, f_h := 50, f_c := 1000, f_p := 1000 }

/-- C2 counterexample: with these fixed draws, triggering
`temperature_spike` for building 1 with intensity 1/200 = 0.005 moves
the temperature reading by 1/100 (20.01 against 20.00), not by the
intensity — the final two-decimal rounding breaks exactness for
intensities that are not integer multiples of 0.01. -/
theorem C2_rounding_counterexample :
    (genReading ((triggerScenario initState "temperature_spike" (some 1)
          (some (1 / 200)) none 0 []).2) c2draws 1 1 1).temperature -
        (genReading initState c2draws 1 1 1).temperature ≠ 1 / 200 := by
  rw [triggerScenario_some_snd initState "temperature_spike" (some 1)
    (some (1 / 200)) none 0 [] .temperature_spike rfl]
  rw [genReading_temp_spike _ c2draws 1 1 1 (fun h => Bool.noConfusion h.1)
    ⟨rfl, rfl⟩]
  rw [genReading_temp_plain initState c2draws 1 1 1
    (fun h => Bool.noConfusion h.1) (fun h => Bool.noConfusion h.1)]
  norm_num [round2, round_eq, baseTemps, c2draws, ScenarioState.set, initState,
    activeRecord, Option.getD]

/-- The conclusion of claim C2 at draws `d`, sensor coordinates, targeted
building `b`, another building `b'`, intensity `i` and trigger request
parameters: each of the three quantity scenarios moves exactly its
targeted quantity by exactly `i` for building `b`, leaves the other
quantities of building `b` unchanged, and leaves readings for `b'`
bit-identical to the no-scenario readings. -/
def C2Prop (d : Draws) (s c b b' : ℕ) (i : ℚ) (now : ℕ) (dur : Option ℚ)
    (aff : List ℕ) : Prop :=
  ((genReading ((triggerScenario initState "temperature_spike" (some b) (some i)
        dur now aff).2) d s b c).temperature
      = (genReading initState d s b c).temperature + i ∧
   (genReading ((triggerScenario initState "temperature_spike" (some b) (some i)
        dur now aff).2) d s b c).humidity
      = (genReading initState d s b c).humidity ∧
   (genReading ((triggerScenario initState "temperature_spike" (some b) (some i)
        dur now aff).2) d s b c).co2
      = (genReading initState d s b c).co2 ∧
   (genReading ((triggerScenario initState "temperature_spike" (some b) (some i)
        dur now aff).2) d s b c).pressure
      = (genReading initState d s b c).pressure ∧
   genReading ((triggerScenario initState "temperature_spike" (some b) (some i)
        dur now aff).2) d s b' c
      = genReading initState d s b' c) ∧
  ((genReading ((triggerScenario initState "humidity_drop" (some b) (some i)
        dur now aff).2) d s b c).humidity
      = (genReading initState d s b c).humidity - i ∧
   (genReading ((triggerScenario initState "humidity_drop" (some b) (some i)
        dur now aff).2) d s b c).temperature
      = (genReading initState d s b c).temperature ∧
   (genReading ((triggerScenario initState "humidity_drop" (some b) (some i)
        dur now aff).2) d s b c).co2
      = (genReading initState d s b c).co2 ∧
   (genReading ((triggerScenario initState "humidity_drop" (some b) (some i)
        dur now aff).2) d s b c).pressure
      = (genReading initState d s b c).pressure ∧
   genReading ((triggerScenario initState "humidity_drop" (some b) (some i)
        dur now aff).2) d s b' c
      = genReading initState d s b' c) ∧
  ((genReading ((triggerScenario initState "co2_alarm" (some b) (some i)
        dur now aff).2) d s b c).co2
      = (genReading initState d s b c).co2 + i ∧
   (genReading ((triggerScenario initState "co2_alarm" (some b) (some i)
        dur now aff).2) d s b c).temperature
      = (genReading initState d s b c).temperature ∧
   (genReading ((triggerScenario initState "co2_alarm" (some b) (some i)
        dur now aff).2) d s b c).humidity
      = (genReading initState d s b c).humidity ∧
   (genReading ((triggerScenario initState "co2_alarm" (some b) (some i)
        dur now aff).2) d s b c).pressure
      = (genReading initState d s b c).pressure ∧
   genReading ((triggerScenario initState "co2_alarm" (some b) (some i)
        dur now aff).2) d s b' c
      = genReading initState d s b' c)

/-- C2 amended: the claim holds whenever the intensity is an integer
multiple of 0.01 (in particular for all the documented defaults); the
two-decimal output rounding otherwise perturbs the delta. -/
theorem C2_scenario_delta (d : Draws) (s c b b' : ℕ) (i : ℚ) (now : ℕ)
    (dur : Option ℚ) (aff : List ℕ)
    (hcent : ∃ k : ℤ, i = (k : ℚ) / 100) (hb : b' ≠ b) :
    C2Prop d s c b b' i now dur aff := by
  obtain ⟨k, rfl⟩ := hcent
  unfold C2Prop
  rw [triggerScenario_some_snd initState "temperature_spike" (some b)
      (some ((k : ℚ) / 100)) dur now aff .temperature_spike rfl,
    triggerScenario_some_snd initState "humidity_drop" (some b)
      (some ((k : ℚ) / 100)) dur now aff .humidity_drop rfl,
    triggerScenario_some_snd initState "co2_alarm" (some b)
      (some ((k : ℚ) / 100)) dur now aff .co2_alarm rfl]
  refine ⟨⟨?_, ?_, ?_, ?_, ?_⟩, ⟨?_, ?_, ?_, ?_, ?_⟩, ⟨?_, ?_, ?_, ?_, ?_⟩⟩
  · rw [genReading_temp_spike (initState.set .temperature_spike
        (activeRecord .temperature_spike (some b) (some ((k : ℚ) / 100)) dur now aff))
        d s b c (fun h => Bool.noConfusion h.1) ⟨rfl, rfl⟩,
      genReading_temp_plain initState d s b c (fun h => Bool.noConfusion h.1)
        (fun h => Bool.noConfusion h.1)]
    exact round2_add_cent _ k
  · rw [genReading_humid_plain (initState.set .temperature_spike
        (activeRecord .temperature_spike (some b) (some ((k : ℚ) / 100)) dur now aff))
        d s b c (fun h => Bool.noConfusion h.1) (fun h => Bool.noConfusion h.1),
      genReading_humid_plain initState d s b c (fun h => Bool.noConfusion h.1)
        (fun h => Bool.noConfusion h.1)]
  · rw [genReading_co2_plain (initState.set .temperature_spike
        (activeRecord .temperature_spike (some b) (some ((k : ℚ) / 100)) dur now aff))
        d s b c (fun h => Bool.noConfusion h.1) (fun h => Bool.noConfusion h.1),
      genReading_co2_plain initState d s b c (fun h => Bool.noConfusion h.1)
        (fun h => Bool.noConfusion h.1)]
  · rw [genReading_pressure_plain (initState.set .temperature_spike
        (activeRecord .temperature_spike (some b) (some ((k : ℚ) / 100)) dur now aff))
        d s b c (fun h => Bool.noConfusion h.1),
      genReading_pressure_plain initState d s b c (fun h => Bool.noConfusion h.1)]
  · exact genReading_no_scenario _ d s b' c
      ⟨fun h => hb (Option.some.inj h.2).symm, fun h => Bool.noConfusion h.1,
       fun h => Bool.noConfusion h.1, fun h => Bool.noConfusion h.1⟩
  · rw [genReading_humid_drop (initState.set .humidity_drop
        (activeRecord .humidity_drop (some b) (some ((k : ℚ) / 100)) dur now aff))
        d s b c (fun h => Bool.noConfusion h.1) ⟨rfl, rfl⟩,
      genReading_humid_plain initState d s b c (fun h => Bool.noConfusion h.1)
        (fun h => Bool.noConfusion h.1)]
    exact round2_sub_cent _ k
  · rw [genReading_temp_plain (initState.set .humidity_drop
        (activeRecord .humidity_drop (some b) (some ((k : ℚ) / 100)) dur now aff))
        d s b c (fun h => Bool.noConfusion h.1) (fun h => Bool.noConfusion h.1),
      genReading_temp_plain initState d s b c (fun h => Bool.noConfusion h.1)
        (fun h => Bool.noConfusion h.1)]
  · rw [genReading_co2_plain (initState.set .humidity_drop
        (activeRecord .humidity_drop (some b) (some ((k : ℚ) / 100)) dur now aff))
        d s b c (fun h => Bool.noConfusion h.1) (fun h => Bool.noConfusion h.1),
      genReading_co2_plain initState d s b c (fun h => Bool.noConfusion h.1)
        (fun h => Bool.noConfusion h.1)]
  · rw [genReading_pressure_plain (initState.set .humidity_drop
        (activeRecord .humidity_drop (some b) (some ((k : ℚ) / 100)) dur now aff))
        d s b c (fun h => Bool.noConfusion h.1),
      genReading_pressure_plain initState d s b c (fun h => Bool.noConfusion h.1)]
  · exact genReading_no_scenario _ d s b' c
      ⟨fun h => Bool.noConfusion h.1, fun h => hb (Option.some.inj h.2).symm,
       fun h => Bool.noConfusion h.1, fun h => Bool.noConfusion h.1⟩
  · rw [genReading_co2_alarm (initState.set .co2_alarm
        (activeRecord .co2_alarm (some b) (some ((k : ℚ) / 100)) dur now aff))
        d s b c (fun h => Bool.noConfusion h.1) ⟨rfl, rfl⟩,
      genReading_co2_plain initState d s b c (fun h => Bool.noConfusion h.1)
        (fun h => Bool.noConfusion h.1)]
    exact round2_add_cent _ k
  · rw [genReading_temp_plain (initState.set .co2_alarm
        (activeRecord .co2_alarm (some b) (some ((k : ℚ) / 100)) dur now aff))
        d s b c (fun h => Bool.noConfusion h.1) (fun h => Bool.noConfusion h.1),
      genReading_temp_plain initState d s b c (fun h => Bool.noConfusion h.1)
        (fun h => Bool.noConfusion h.1)]
  · rw [genReading_humid_plain (initState.set .co2_alarm
        (activeRecord .co2_alarm (some b) (some ((k : ℚ) / 100)) dur now aff))
        d s b c (fun h => Bool.noConfusion h.1) (fun h => Bool.noConfusion h.1),
      genReading_humid_plain initState d s b c (fun h => Bool.noConfusion h.1)
        (fun h => Bool.noConfusion h.1)]
  · rw [genReading_pressure_plain (initState.set .co2_alarm
        (activeRecord .co2_alarm (some b) (some ((k : ℚ) / 100)) dur now aff))
        d s b c (fun h => Bool.noConfusion h.1),
      genReading_pressure_plain initState d s b c (fun h => Bool.noConfusion h.1)]
  · exact genReading_no_scenario _ d s b' c
      ⟨fun h => Bool.noConfusion h.1, fun h => Bool.noConfusion h.1,
       fun h => hb (Option.some.inj h.2).symm, fun h => Bool.noConfusion h.1⟩

/-- C2 amended witness: intensity 0.03 for building 1 observed from
building 2. -/
theorem C2_scenario_delta_witness : C2Prop c2draws 1 1 1 2 (3 / 100) 0 none [] :=
  C2_scenario_delta c2draws 1 1 1 2 (3 / 100) 0 none [] ⟨3, by simp⟩ (by decide)

/-- The conclusion of claim C10 for states `st`, `st'` agreeing on
`equipment_failure` (active for building `b`) and `temperature_spike`:
humidity, co2 and pressure come from the fresh failure draws alone, lie
in the fixed ranges, and are insensitive to the `humidity_drop` and
`co2_alarm` entries; only the temperature keeps any concurrent
`temperature_spike` adjustment, plus the extra `f_t` perturbation. -/
def C10Prop (st st' : ScenarioState) (d : Draws) (s b c : ℕ) : Prop :=
  (genReading st d s b c).humidity = round2 d.f_h ∧
  (genReading st d s b c).co2 = round2 d.f_c ∧
  (genReading st d s b c).pressure = round2 d.f_p ∧
  0 ≤ (genReading st d s b c).humidity ∧ (genReading st d s b c).humidity ≤ 100 ∧
  0 ≤ (genReading st d s b c).co2 ∧ (genReading st d s b c).co2 ≤ 2000 ∧
  900 ≤ (genReading st d s b c).pressure ∧ (genReading st d s b c).pressure ≤ 1100 ∧
  (genReading st' d s b c).humidity = (genReading st d s b c).humidity ∧
  (genReading st' d s b c).co2 = (genReading st d s b c).co2 ∧
  (genReading st' d s b c).pressure = (genReading st d s b c).pressure ∧
  (genReading st' d s b c).temperature = (genReading st d s b c).temperature ∧
  (genReading st d s b c).temperature =
    round2 ((baseTemps b : ℚ) + d.r_t +
      (if st.temperature_spike.active = true ∧
          st.temperature_spike.building_id = some b
       then st.temperature_spike.intensity.getD 10 else 0) + d.f_t)

/-- C10: when `equipment_failure` is active for a building, humidity,
co2 and pressure are freshly drawn from [0,100], [0,2000], [900,1100]
and do not depend on `humidity_drop` / `co2_alarm`; temperature retains
the `temperature_spike` adjustment plus a ±10 perturbation. -/
theorem C10_failure_overrides (st st' : ScenarioState) (d : Draws) (s b c : ℕ)
    (hact : st.equipment_failure.active = true)
    (hbld : st.equipment_failure.building_id = some b)
    (hef : st'.equipment_failure = st.equipment_failure)
    (hts : st'.temperature_spike = st.temperature_spike)
    (hd : validDraws d) : C10Prop st st' d s b c := by
  have hEF : st.equipment_failure.active = true ∧
      st.equipment_failure.building_id = some b := ⟨hact, hbld⟩
  have hEF' : st'.equipment_failure.active = true ∧
      st'.equipment_failure.building_id = some b := by rw [hef]; exact hEF
  obtain ⟨-, -, -, -, -, -, -, -, -, -, h11, h12, h13, h14, h15, h16⟩ := hd
  have e1 : (genReading st d s b c).humidity = round2 d.f_h := by
    rw [genReading_humidity_def, if_pos hEF]
  have e2 : (genReading st d s b c).co2 = round2 d.f_c := by
    rw [genReading_co2_def, if_pos hEF]
  have e3 : (genReading st d s b c).pressure = round2 d.f_p := by
    rw [genReading_pressure_def, if_pos hEF]
  have et : (genReading st d s b c).temperature =
      round2 ((if st.temperature_spike.active = true ∧
            st.temperature_spike.building_id = some b
          then (baseTemps b : ℚ) + d.r_t + st.temperature_spike.intensity.getD 10
          else (baseTemps b : ℚ) + d.r_t) + d.f_t) := by
    rw [genReading_temperature_def, if_pos hEF]
  have et' : (genReading st' d s b c).temperature =
      round2 ((if st.temperature_spike.active = true ∧
            st.temperature_spike.building_id = some b
          then (baseTemps b : ℚ) + d.r_t + st.temperature_spike.intensity.getD 10
          else (baseTemps b : ℚ) + d.r_t) + d.f_t) := by
    rw [genReading_temperature_def, if_pos hEF', hts]
  refine ⟨e1, e2, e3, ?_, ?_, ?_, ?_, ?_, ?_, ?_, ?_, ?_, ?_, ?_⟩
  · rw [e1]
    have := round2_ge_int 0 d.f_h (by push_cast; linarith)
    push_cast at this; linarith
  · rw [e1]
    have := round2_le_int 100 d.f_h (by push_cast; linarith)
    push_cast at this; linarith
  · rw [e2]
    have := round2_ge_int 0 d.f_c (by push_cast; linarith)
    push_cast at this; linarith
  · rw [e2]
    have := round2_le_int 2000 d.f_c (by push_cast; linarith)
    push_cast at this; linarith
  · rw [e3]
    have := round2_ge_int 900 d.f_p (by push_cast; linarith)
    push_cast at this; linarith
  · rw [e3]
    have := round2_le_int 1100 d.f_p (by push_cast; linarith)
    push_cast at this; linarith
  · rw [e1, genReading_humidity_def, if_pos hEF']
  · rw [e2, genReading_co2_def, if_pos hEF']
  · rw [e3, genReading_pressure_def, if_pos hEF']
  · rw [et, et']
  · rw [et]
    by_cases hTS : st.temperature_spike.active = true ∧
        st.temperature_spike.building_id = some b
    · rw [if_pos hTS, if_pos hTS]
    · rw [if_neg hTS, if_neg hTS]
      congr 1
      ring

/-- Concrete states for the C10 witness: equipment failure active for
building 1, and (in `c10st` only) humidity_drop and co2_alarm active for
the same building with extreme intensities. -/
def c10st : ScenarioState :=
  { temperature_spike :=
      { active := true, building_id := some 1, intensity := some 7,
        started_at := none, duration := none, affected_sensors := none,
        failed_sensors := none },
    humidity_drop :=
      { active := true, building_id := some 1, intensity := some 999,
        started_at := none, duration := none, affected_sensors := none,
        failed_sensors := none },
    co2_alarm :=
      { active := true, building_id := some 1, intensity := some 12345,
        started_at := none, duration := none, affected_sensors := none,
        failed_sensors := none },
    equipment_failure :=
      { active := true, building_id := some 1, intensity := none,
        started_at := none, duration := none, affected_sensors := none,
        failed_sensors := some [] } }

/-- Same as `c10st` but with `humidity_drop` and `co2_alarm` back in
their inactive initial configuration. -/
def c10stAlt : ScenarioState :=
  { c10st with
    humidity_drop := initState.humidity_drop
    co2_alarm := initState.co2_alarm }

/-- C10 witness: the two concrete states produce identical humidity, co2
and pressure readings despite disagreeing on `humidity_drop` and
`co2_alarm`. -/
theorem C10_failure_overrides_witness : C10Prop c10st c10stAlt c1draws 1 1 1 :=
  C10_failure_overrides c10st c10stAlt c1draws 1 1 1 rfl rfl rfl rfl (by decide)

end ProMonitor
